import Mathlib

/-!
Verification of the mugfx generational resource pool and uniform layout/binding
subsystem against its specification.

The definitions below are a shallow embedding of the C++ sources:
- src/src/shared.hpp      (Pool, the generational slot table)
- src/src/opengl/opengl.cpp (uniform layout calculator, uniform data store,
  material creation and draw-time uniform application)

Machine integers are modelled as Nat; bit operations are written with the
same operators as the source (&&&, >>>, <<<, |||).  The pool's value storage
(data_), which the C++ reuses as free-list links through placement new, is
modelled by the sum type Cell.
-/

namespace Mugfx

/-! ## Slot table (Pool) from src/src/shared.hpp -/

/-- Pool::EmptyIndex, the sentinel marking an empty slot (shared.hpp line 134). -/
def EmptyIndex : Nat := 0xFFFF

/-- Models Pool::Id (shared.hpp lines 136-144): a 16-bit slot index and a
16-bit generation packed into a 32-bit key. -/
structure Ident where
  idx : Nat
  gen : Nat
deriving DecidableEq, Repr

/-- Id(uint32_t id) : idx(id & 0xFFFF), gen(id >> 16). -/
def Ident.ofKey (key : Nat) : Ident :=
  { idx := key &&& 0xFFFF, gen := key >>> 16 }

/-- uint32_t combine() const { return gen << 16 | idx; } -/
def Ident.combine (id : Ident) : Nat :=
  id.gen <<< 16 ||| id.idx

/-- One slot of the pool's raw value storage data_.  The C++ placement-news
either a uint16_t free-list link or a value T into the same bytes. -/
inductive Cell (T : Type) where
  | link (next : Nat)
  | value (v : T)
deriving DecidableEq, Repr

/-- Models Pool<T> (shared.hpp lines 63-156): parallel arrays data_ and ids_,
the capacity and the free-list head. -/
structure Pool (T : Type) where
  data : List (Cell T)
  ids : List Ident
  capacity : Nat
  freeListHead : Nat
deriving DecidableEq, Repr

/-- The assertion guarding Pool::init (shared.hpp line 69):
assert(capacity > 0 && capacity < 0xffff). -/
def Pool.initAssert (capacity : Nat) : Bool :=
  decide (capacity > 0) && decide (capacity < 0xFFFF)

/-- Pool::init (shared.hpp lines 67-78): every slot tagged empty with
generation 1, free list threaded through the value storage (slot i links to
i + 1), free_list_head_ = 0. -/
def Pool.init (T : Type) (capacity : Nat) : Pool T :=
  { data := (List.range capacity).map (fun i => Cell.link (i + 1))
    ids := List.replicate capacity { idx := EmptyIndex, gen := 1 }
    capacity := capacity
    freeListHead := 0 }

/-- Pool::contains (shared.hpp lines 110-114):
id.idx < capacity_ && ids_[id.idx].gen == id.gen.
Note the slot's occupancy tag (ids_[id.idx].idx) is not consulted. -/
def Pool.contains (p : Pool T) (key : Nat) : Bool :=
  let id := Ident.ofKey key
  decide (id.idx < p.capacity) && ((p.ids.getD id.idx { idx := 0, gen := 0 }).gen == id.gen)

/-- Pool::get (shared.hpp line 129): a pointer to the slot's storage iff
contains; the storage may hold a free-list link rather than a value. -/
def Pool.get (p : Pool T) (key : Nat) : Option (Cell T) :=
  if p.contains key then some (p.data.getD (Ident.ofKey key).idx (Cell.link 0)) else none

/-- The two assertions guarding Pool::insert (shared.hpp lines 96-97):
assert(idx < capacity_); assert(ids_[idx].idx == EmptyIndex).
insertOk is true exactly when neither assertion fires. -/
def Pool.insertOk (p : Pool T) : Bool :=
  decide (p.freeListHead < p.capacity)
    && ((p.ids.getD p.freeListHead { idx := 0, gen := 0 }).idx == EmptyIndex)

/-- Pool::insert (shared.hpp lines 93-103): pops the free-list head, stores
the value, marks the slot occupied (ids_[idx].idx = idx) and returns
ids_[idx].combine().  The link arm of the match mirrors get_free_list
reading the stored uint16_t; the value arm is unreachable because an
empty-tagged slot always stores a link. -/
def Pool.insert (p : Pool T) (v : T) : Nat × Pool T :=
  let idx := p.freeListHead
  let newHead := match p.data.getD idx (Cell.link 0) with
    | Cell.link n => n
    | Cell.value _ => 0
  let oldId := p.ids.getD idx { idx := 0, gen := 0 }
  let newId : Ident := { idx := idx, gen := oldId.gen }
  (newId.combine,
    { p with
      data := p.data.set idx (Cell.value v)
      ids := p.ids.set idx newId
      freeListHead := newHead })

/-- Pool::remove (shared.hpp lines 116-127): no-op returning false when not
contained; otherwise destroys the value, pushes the slot onto the free list
and tags it empty.  Faithful to the source, the slot generation is left
unchanged (there is no ids_[idx].gen increment in the function body). -/
def Pool.remove (p : Pool T) (key : Nat) : Bool × Pool T :=
  if p.contains key then
    let idx := (Ident.ofKey key).idx
    let oldId := p.ids.getD idx { idx := 0, gen := 0 }
    (true,
      { p with
        data := p.data.set idx (Cell.link p.freeListHead)
        ids := p.ids.set idx { idx := EmptyIndex, gen := oldId.gen }
        freeListHead := idx })
  else (false, p)

/-- Number of slots currently tagged occupied. -/
def Pool.liveCount (p : Pool T) : Nat :=
  p.ids.countP (fun id => decide (id.idx ≠ EmptyIndex))

/-! ## Claims about the slot table -/

/-- C1: the claim states that a handle is rejected by contains/get after its
remove.  In the source, Pool::remove never increments the slot's generation
(contradicting both the spec and the init comment "We invalidate on
removal"), so a removed handle is still accepted by contains, a second
remove of the same stale handle succeeds, and a subsequent insert into the
reused slot returns the very same key as the stale handle. -/
theorem pool_stale_handle_accepted_after_remove :
    let s0 : Pool Nat := Pool.init Nat 1
    let r1 := s0.insert 42
    let r2 := r1.2.remove r1.1
    r2.1 = true ∧ r2.2.contains r1.1 = true ∧ (r2.2.get r1.1).isSome = true
      ∧ (r2.2.insert 7).1 = r1.1 := by decide

/-- C5 counterexample: capacity 65535 lies in the claim's open interval
(0, 65536), yet the init assertion capacity < 0xffff rejects it. -/
theorem pool_init_assert_c5_counterexample :
    (0 < 65535 ∧ 65535 < 65536) ∧ Pool.initAssert 65535 = false := by decide

/-- C5 amended: init(capacity) accepts exactly the capacities in the open
interval (0, 65535): the assertion is capacity > 0 && capacity < 0xffff. -/
theorem pool_init_assert_iff (c : Nat) :
    Pool.initAssert c = true ↔ 0 < c ∧ c < 65535 := by
  simp [Pool.initAssert]

/-- Witness for pool_init_assert_iff at capacity 3. -/
theorem pool_init_assert_iff_witness : Pool.initAssert 3 = true :=
  (pool_init_assert_iff 3).mpr (by decide)

/-- C6: the claim states the insert assertion fires exactly on a full table.
Because Pool::remove leaves the generation unchanged, removing the same
handle twice succeeds twice and pushes the slot onto the free list twice,
creating a self-linked free list.  After re-inserting once, the next insert
hits assert(ids_[idx].idx == EmptyIndex) although only 1 of 2 slots is
live: the fatal path is reachable on a non-full table. -/
theorem pool_insert_assert_on_non_full_table :
    let s0 : Pool Nat := Pool.init Nat 2
    let r1 := s0.insert 10
    let r2 := r1.2.remove r1.1
    let r3 := r2.2.remove r1.1
    let r4 := r3.2.insert 11
    s0.insertOk = true ∧ r3.2.insertOk = true
      ∧ r2.1 = true ∧ r3.1 = true
      ∧ r4.2.liveCount = 1 ∧ r4.2.capacity = 2 ∧ r4.2.insertOk = false := by decide

/-! ## Uniform layout calculator from src/src/opengl/opengl.cpp -/

/-- mugfx_uniform_type.  The value 0 (here: none_) is the unset value the
loops test against with !uniform.type. -/
inductive UniformType where
  | none_
  | float | vec2 | vec3 | vec4
  | int | ivec2 | ivec3 | ivec4
  | uint | uvec2 | uvec3 | uvec4
  | mat2 | mat3 | mat4
  | mat2x3 | mat3x2 | mat2x4 | mat4x2 | mat3x4 | mat4x3
deriving DecidableEq, Repr

/-- Body of get_uniform_size (opengl.cpp lines 605-688), transcribed case by
case, including the source's grouping of IVEC4 with the 12-byte cases and
UVEC3 with the 16-byte cases.  The first argument bounds the recursion
depth; the source recursion is at most 3 deep (matrix → vector array →
vec4 scalar), so get_uniform_size instantiates it with 3 and the
fuel-exhausted arm is never taken. -/
def get_uniform_size_go : Nat → UniformType → Nat → Nat
  | 0, _, _ => 0
  | fuel + 1, type, array_size =>
    if 0 < array_size then
      match type with
      | .float | .int | .uint
      | .vec2 | .vec3 | .vec4
      | .ivec2 | .ivec3 | .ivec4
      | .uvec2 | .uvec3 | .uvec4 =>
        get_uniform_size_go fuel .vec4 0 * array_size
      | .mat2 => get_uniform_size_go fuel .vec2 (2 * array_size)
      | .mat3 => get_uniform_size_go fuel .vec3 (3 * array_size)
      | .mat4 => get_uniform_size_go fuel .vec4 (4 * array_size)
      | .mat2x3 => get_uniform_size_go fuel .vec3 (2 * array_size)
      | .mat3x2 => get_uniform_size_go fuel .vec2 (3 * array_size)
      | .mat2x4 => get_uniform_size_go fuel .vec4 (2 * array_size)
      | .mat4x2 => get_uniform_size_go fuel .vec2 (4 * array_size)
      | .mat3x4 => get_uniform_size_go fuel .vec4 (3 * array_size)
      | .mat4x3 => get_uniform_size_go fuel .vec3 (4 * array_size)
      | .none_ => 0
    else
      match type with
      | .float | .int | .uint => 4
      | .vec2 | .ivec2 | .uvec2 => 2 * 4
      | .vec3 | .ivec3 | .ivec4 => 3 * 4
      | .vec4 | .uvec3 | .uvec4 => 4 * 4
      | .mat2 => get_uniform_size_go fuel .vec2 2
      | .mat3 => get_uniform_size_go fuel .vec3 3
      | .mat4 => get_uniform_size_go fuel .vec4 4
      | .mat2x3 => get_uniform_size_go fuel .vec3 2
      | .mat3x2 => get_uniform_size_go fuel .vec2 3
      | .mat2x4 => get_uniform_size_go fuel .vec4 2
      | .mat4x2 => get_uniform_size_go fuel .vec2 4
      | .mat3x4 => get_uniform_size_go fuel .vec4 3
      | .mat4x3 => get_uniform_size_go fuel .vec3 4
      | .none_ => 0

/-- get_uniform_size (opengl.cpp lines 605-688). -/
def get_uniform_size (type : UniformType) (array_size : Nat) : Nat :=
  get_uniform_size_go 3 type array_size

/-- Body of get_uniform_alignment (opengl.cpp lines 690-726); the single
self-call (arrays align like vec4) makes depth 2 enough. -/
def get_uniform_alignment_go : Nat → UniformType → Nat → Nat
  | 0, _, _ => 0
  | fuel + 1, type, array_size =>
    if 0 < array_size then
      get_uniform_alignment_go fuel .vec4 0
    else
      match type with
      | .float | .int | .uint => get_uniform_size type 0
      | .vec2 | .ivec2 | .uvec2 => 2 * get_uniform_size .float 0
      | .vec3 | .vec4 | .ivec3 | .ivec4 | .uvec3 | .uvec4 =>
        4 * get_uniform_size .float 0
      | .mat2 | .mat3 | .mat4
      | .mat2x3 | .mat3x2 | .mat2x4 | .mat4x2 | .mat3x4 | .mat4x3 =>
        4 * get_uniform_size .float 0
      | .none_ => 0

/-- get_uniform_alignment (opengl.cpp lines 690-726). -/
def get_uniform_alignment (type : UniformType) (array_size : Nat) : Nat :=
  get_uniform_alignment_go 2 type array_size

/-- align (opengl.cpp lines 728-735). -/
def align (offset alignment : Nat) : Nat :=
  let misalignment := offset % alignment
  if misalignment = 0 then offset else offset + alignment - misalignment

/-- mugfx_uniform_descriptor entry: name (const char*, none_ when null),
type, array_size and the offset filled in by the layout calculator. -/
structure UniformDecl where
  name : Option String
  type : UniformType
  array_size : Nat
  offset : Nat
deriving DecidableEq, Repr

/-- MUGFX_MAX_UNIFORMS (mugfx.h line 15). -/
def MUGFX_MAX_UNIFORMS : Nat := 32

/-- mugfx_uniform_descriptor: the uniforms array (conceptually of length
MUGFX_MAX_UNIFORMS) and the computed total size. -/
structure UniformDescriptor where
  uniforms : List UniformDecl
  size : Nat
deriving DecidableEq, Repr

/-- The loop body of mugfx_uniform_descriptor_calculate_layout
(opengl.cpp lines 742-752): walks the declarations, stopping at the first
with a null name or unset type; aligns the running offset, records it, and
tracks the maximal member alignment.  Returns the updated declarations and
the final (offset, max_alignment) pair. -/
def layout_uniforms : List UniformDecl → Nat → Nat → List UniformDecl × Nat × Nat
  | [], offset, max_alignment => ([], offset, max_alignment)
  | u :: rest, offset, max_alignment =>
    if u.name.isNone || u.type == .none_ then
      (u :: rest, offset, max_alignment)
    else
      let uniform_alignment := get_uniform_alignment u.type u.array_size
      let offset1 := align offset uniform_alignment
      let max1 := if uniform_alignment > max_alignment then uniform_alignment else max_alignment
      let next := layout_uniforms rest (offset1 + get_uniform_size u.type u.array_size) max1
      ({ u with offset := offset1 } :: next.1, next.2)

/-- mugfx_uniform_descriptor_calculate_layout (opengl.cpp lines 738-754).
The source loop visits at most MUGFX_MAX_UNIFORMS entries; the final size is
the running offset aligned to the maximal member alignment. -/
def mugfx_uniform_descriptor_calculate_layout (d : UniformDescriptor) : UniformDescriptor :=
  let r := layout_uniforms (d.uniforms.take MUGFX_MAX_UNIFORMS) 0 0
  { uniforms := r.1 ++ d.uniforms.drop MUGFX_MAX_UNIFORMS
    size := align r.2.1 r.2.2 }

/-! ## Claims about the layout calculator -/

/-- C3: the claim assigns size 12 to every 3-component vector and 16 to
every 4-component vector.  The source (opengl.cpp lines 657-664) groups
IVEC4 with the 12-byte cases and UVEC3 with the 16-byte cases, so
get_uniform_size returns 12 for ivec4 and 16 for uvec3, against both the
claim and the std140 standard the function's own comment cites.  The
alignment of all six 3/4-component vectors is 16 as claimed. -/
theorem uniform_size_ivec4_uvec3_swapped :
    get_uniform_size .ivec4 0 = 12 ∧ get_uniform_size .uvec3 0 = 16
      ∧ get_uniform_size .vec3 0 = 12 ∧ get_uniform_size .ivec3 0 = 12
      ∧ get_uniform_size .vec4 0 = 16 ∧ get_uniform_size .uvec4 0 = 16
      ∧ get_uniform_alignment .ivec4 0 = 16 ∧ get_uniform_alignment .uvec3 0 = 16
      ∧ get_uniform_alignment .vec3 0 = 16 ∧ get_uniform_alignment .ivec3 0 = 16
      ∧ get_uniform_alignment .vec4 0 = 16 ∧ get_uniform_alignment .uvec4 0 = 16 := by
  decide

/-- C4: running the layout calculator on [float, vec3, mat4] (no arrays)
assigns offsets 0, 16 and 32 and total size 96. -/
theorem layout_float_vec3_mat4 :
    let d : UniformDescriptor :=
      { uniforms :=
          [ { name := some "f", type := .float, array_size := 0, offset := 0 }
          , { name := some "v", type := .vec3, array_size := 0, offset := 0 }
          , { name := some "m", type := .mat4, array_size := 0, offset := 0 } ]
        size := 0 }
    let r := mugfx_uniform_descriptor_calculate_layout d
    r.uniforms.map UniformDecl.offset = [0, 16, 32] ∧ r.size = 96 := by
  decide

/-! ## Uniform data store from src/src/opengl/opengl.cpp -/

/-- StackString<128>::create succeeds iff the length is < 128
(shared.hpp lines 161-167). -/
def stackStringOk (s : String) : Bool :=
  decide (s.length < 128)

/-- UniformMetadata (opengl.cpp lines 555-560). -/
structure UniformMetadata where
  name : String
  type : UniformType
  array_size : Nat
  offset : Nat
deriving DecidableEq, Repr

/-- A default-initialized UniformMetadata array entry. -/
def metaDefault : UniformMetadata :=
  { name := "", type := .none_, array_size := 0, offset := 0 }

/-- UniformData (opengl.cpp lines 562-567).  descriptor is the pointer
identity of the creation-time descriptor; data is the local byte buffer. -/
structure UniformData where
  descriptor : Nat
  metadata : List UniformMetadata
  size : Nat
  data : List Nat
deriving DecidableEq, Repr

/-- The metadata-building loop of mugfx_uniform_data_create (opengl.cpp
lines 1291-1308): stops at the first declaration with unset type; a named
declaration whose name does not fit a StackString fails the whole creation;
offsets are copied from the caller's descriptor as-is. -/
def build_metadata : List UniformDecl → Option (List UniformMetadata)
  | [] => some []
  | u :: rest =>
    if u.type == .none_ then some []
    else
      match u.name with
      | some s =>
        if stackStringOk s then
          (build_metadata rest).map
            (fun ms => { name := s, type := u.type, array_size := u.array_size, offset := u.offset } :: ms)
        else none
      | none =>
        (build_metadata rest).map
          (fun ms => { name := "", type := u.type, array_size := u.array_size, offset := u.offset } :: ms)

/-- mugfx_uniform_data_create (opengl.cpp lines 1278-1312): recomputes the
layout on a copy of the descriptor to size the zero-initialized local
buffer, and copies the declaration metadata (with the caller's offsets)
for later name lookup.  none models the { 0 } failure return. -/
def mugfx_uniform_data_create (descPtr : Nat) (desc : UniformDescriptor) : Option UniformData :=
  let computed := mugfx_uniform_descriptor_calculate_layout desc
  match build_metadata (desc.uniforms.take MUGFX_MAX_UNIFORMS) with
  | none => none
  | some ms =>
    some
      { descriptor := descPtr
        metadata := ms ++ List.replicate (MUGFX_MAX_UNIFORMS - ms.length) metaDefault
        size := computed.size
        data := List.replicate computed.size 0 }

/-- get_uniform_index (opengl.cpp lines 1315-1323): first entry (among the
MUGFX_MAX_UNIFORMS array slots) with a set type and a matching name;
MUGFX_MAX_UNIFORMS when there is none. -/
def get_uniform_index (ub : UniformData) (name : String) : Nat :=
  match (ub.metadata.take MUGFX_MAX_UNIFORMS).findIdx?
      (fun m => m.type != .none_ && m.name == name) with
  | some i => i
  | none => MUGFX_MAX_UNIFORMS

/-- get_float_uniform_data_size (opengl.cpp lines 1325-1357); 0 marks the
non-float types. -/
def get_float_uniform_data_size : UniformType → Nat
  | .float => 4
  | .vec2 => 2 * 4
  | .vec3 => 3 * 4
  | .vec4 => 4 * 4
  | .mat2 => 2 * 2 * 4
  | .mat3 => 3 * 3 * 4
  | .mat4 => 4 * 4 * 4
  | .mat2x3 => 2 * 3 * 4
  | .mat3x2 => 3 * 2 * 4
  | .mat2x4 => 2 * 4 * 4
  | .mat4x2 => 4 * 2 * 4
  | .mat3x4 => 3 * 4 * 4
  | .mat4x3 => 4 * 3 * 4
  | _ => 0

/-- The outcome logged by mugfx_uniform_data_set_float. -/
inductive SetFloatLog where
  | ok | unknownName | nonFloatType | badLength
deriving DecidableEq, Repr

/-- memcpy into a byte buffer at a byte offset. -/
def bytes_copy (dst : List Nat) (off : Nat) (src : List Nat) : List Nat :=
  dst.take off ++ src ++ dst.drop (off + src.length)

/-- mugfx_uniform_data_set_float (opengl.cpp lines 1410-1440).  Faithful to
line 1439, the final memcpy writes to the start of the local buffer
(ub->data.get()), not to buffer + uniform.offset. -/
def mugfx_uniform_data_set_float (ub : UniformData) (name : String) (data : List Nat) :
    SetFloatLog × UniformData :=
  let idx := get_uniform_index ub name
  if MUGFX_MAX_UNIFORMS ≤ idx then
    (.unknownName, ub)
  else
    let uniform := ub.metadata.getD idx metaDefault
    let data_size := get_float_uniform_data_size uniform.type
    if data_size = 0 then
      (.nonFloatType, ub)
    else if data.length ≠ data_size then
      (.badLength, ub)
    else
      (.ok, { ub with data := bytes_copy ub.data 0 data })

/-! ## Claims about the uniform data store -/

/-- C9: set_float with a name matching no declaration, or with a data
length that differs from the declared type's expected float-data size,
logs an error (result is not ok) and leaves the instance, in particular
its local buffer, unmodified. -/
theorem set_float_failure_leaves_buffer_unmodified
    (ub : UniformData) (name : String) (data : List Nat)
    (h : MUGFX_MAX_UNIFORMS ≤ get_uniform_index ub name
      ∨ data.length ≠ get_float_uniform_data_size
          ((ub.metadata.getD (get_uniform_index ub name) metaDefault).type)) :
    (mugfx_uniform_data_set_float ub name data).2 = ub
      ∧ (mugfx_uniform_data_set_float ub name data).1 ≠ SetFloatLog.ok := by
  unfold mugfx_uniform_data_set_float
  dsimp only
  rcases h with h | h
  · rw [if_pos h]
    exact ⟨rfl, by simp⟩
  · by_cases h1 : MUGFX_MAX_UNIFORMS ≤ get_uniform_index ub name
    · rw [if_pos h1]
      exact ⟨rfl, by simp⟩
    · rw [if_neg h1]
      by_cases h2 :
        get_float_uniform_data_size
          ((ub.metadata.getD (get_uniform_index ub name) metaDefault).type) = 0
      · rw [if_pos h2]
        exact ⟨rfl, by simp⟩
      · rw [if_neg h2, if_pos h]
        exact ⟨rfl, by simp⟩

/-- A one-float uniform data instance used as the C9 witness input. -/
def udFloatA : UniformData :=
  { descriptor := 1
    metadata :=
      { name := "a", type := .float, array_size := 0, offset := 0 }
        :: List.replicate 31 metaDefault
    size := 4
    data := [0, 0, 0, 0] }

/-- Witness for set_float_failure_leaves_buffer_unmodified: the name zz is
not declared in udFloatA. -/
theorem set_float_failure_witness :
    (mugfx_uniform_data_set_float udFloatA "zz" []).2 = udFloatA
      ∧ (mugfx_uniform_data_set_float udFloatA "zz" []).1 ≠ SetFloatLog.ok :=
  set_float_failure_leaves_buffer_unmodified udFloatA "zz" [] (Or.inl (by decide))

/-- C2: the claim states a successful name-based set_float writes the bytes
at the declaration's computed offset.  In the source the memcpy destination
is the buffer start (opengl.cpp line 1439 passes ub->data.get(), ignoring
uniform.offset), while the draw-time reader set_uniform reads at
data + uniform.offset.  On a descriptor [float a, vec4 b] (b at offset 16),
setting b lands in bytes [0, 16) and leaves bytes [16, 32) zero. -/
theorem set_float_ignores_computed_offset :
    let d : UniformDescriptor := mugfx_uniform_descriptor_calculate_layout
      { uniforms :=
          [ { name := some "a", type := .float, array_size := 0, offset := 0 }
          , { name := some "b", type := .vec4, array_size := 0, offset := 0 } ]
        size := 0 }
    let ud := (mugfx_uniform_data_create 7 d).getD ⟨0, [], 0, []⟩
    let r := mugfx_uniform_data_set_float ud "b"
      [1, 2, 3, 4, 5, 6, 7, 8, 9, 10, 11, 12, 13, 14, 15, 16]
    (mugfx_uniform_data_create 7 d).isSome = true
      ∧ (ud.metadata.getD 1 metaDefault).offset = 16
      ∧ ud.size = 32
      ∧ r.1 = SetFloatLog.ok
      ∧ (r.2.data.drop 16).take 16 = List.replicate 16 0
      ∧ r.2.data.take 16 = [1, 2, 3, 4, 5, 6, 7, 8, 9, 10, 11, 12, 13, 14, 15, 16] := by
  decide

/-! ## Draw-time uniform application from src/src/opengl/opengl.cpp -/

/-- The typed glUniform* calls issued by set_uniform (opengl.cpp lines
1697-1776).  The data argument of the *v variants is the pointer the source
passes: the local buffer from the member's offset onward.  uniform1i
carries the two scalar arguments of glUniform1i.  uniform1iv does not occur
in the source; it exists to express the claimed behavior for int scalars. -/
inductive GLCall where
  | uniform1fv (loc : Int) (count : Nat) (data : List Nat)
  | uniform2fv (loc : Int) (count : Nat) (data : List Nat)
  | uniform3fv (loc : Int) (count : Nat) (data : List Nat)
  | uniform4fv (loc : Int) (count : Nat) (data : List Nat)
  | uniform1i (loc : Int) (value : Int)
  | uniform1iv (loc : Int) (count : Nat) (data : List Nat)
  | uniform2iv (loc : Int) (count : Nat) (data : List Nat)
  | uniform3iv (loc : Int) (count : Nat) (data : List Nat)
  | uniform4iv (loc : Int) (count : Nat) (data : List Nat)
  | uniform1uiv (loc : Int) (count : Nat) (data : List Nat)
  | uniform2uiv (loc : Int) (count : Nat) (data : List Nat)
  | uniform3uiv (loc : Int) (count : Nat) (data : List Nat)
  | uniform4uiv (loc : Int) (count : Nat) (data : List Nat)
  | uniformMatrix2fv (loc : Int) (count : Nat) (data : List Nat)
  | uniformMatrix3fv (loc : Int) (count : Nat) (data : List Nat)
  | uniformMatrix4fv (loc : Int) (count : Nat) (data : List Nat)
  | uniformMatrix2x3fv (loc : Int) (count : Nat) (data : List Nat)
  | uniformMatrix3x2fv (loc : Int) (count : Nat) (data : List Nat)
  | uniformMatrix2x4fv (loc : Int) (count : Nat) (data : List Nat)
  | uniformMatrix4x2fv (loc : Int) (count : Nat) (data : List Nat)
  | uniformMatrix3x4fv (loc : Int) (count : Nat) (data : List Nat)
  | uniformMatrix4x3fv (loc : Int) (count : Nat) (data : List Nat)
deriving DecidableEq, Repr

/-- set_uniform (opengl.cpp lines 1697-1776): one typed call per member;
count is array_size or 1; fdata/idata/udata all point at data + offset.
The INT case is glUniform1i(loc, 0) verbatim (line 1717): it passes the
constant 0, not the buffer contents.  none models the invalid-type default
that logs and returns false. -/
def set_uniform (uniform : UniformMetadata) (loc : Int) (data : List Nat) : Option GLCall :=
  let count := if uniform.array_size ≠ 0 then uniform.array_size else 1
  let ptr := data.drop uniform.offset
  match uniform.type with
  | .float => some (.uniform1fv loc count ptr)
  | .vec2 => some (.uniform2fv loc count ptr)
  | .vec3 => some (.uniform3fv loc count ptr)
  | .vec4 => some (.uniform4fv loc count ptr)
  | .int => some (.uniform1i loc 0)
  | .ivec2 => some (.uniform2iv loc count ptr)
  | .ivec3 => some (.uniform3iv loc count ptr)
  | .ivec4 => some (.uniform4iv loc count ptr)
  | .uint => some (.uniform1uiv loc count ptr)
  | .uvec2 => some (.uniform2uiv loc count ptr)
  | .uvec3 => some (.uniform3uiv loc count ptr)
  | .uvec4 => some (.uniform4uiv loc count ptr)
  | .mat2 => some (.uniformMatrix2fv loc count ptr)
  | .mat3 => some (.uniformMatrix3fv loc count ptr)
  | .mat4 => some (.uniformMatrix4fv loc count ptr)
  | .mat2x3 => some (.uniformMatrix2x3fv loc count ptr)
  | .mat3x2 => some (.uniformMatrix3x2fv loc count ptr)
  | .mat2x4 => some (.uniformMatrix2x4fv loc count ptr)
  | .mat4x2 => some (.uniformMatrix4x2fv loc count ptr)
  | .mat3x4 => some (.uniformMatrix3x4fv loc count ptr)
  | .mat4x3 => some (.uniformMatrix4x3fv loc count ptr)
  | .none_ => none

/-- Material::UniformBlock (opengl.cpp lines 526-529): descriptor pointer
identity plus the resolved locations, indexed parallel to the declaration
list. -/
structure UniformBlock where
  uniform_descriptor : Nat
  locations : List Int
deriving DecidableEq, Repr

/-- Material (opengl.cpp lines 525-547).  Backend enum fields hold the
already-translated values as opaque numbers. -/
structure Material where
  vert_shader : Nat
  frag_shader : Nat
  shader_program : Nat
  depth_func : Nat
  write_mask : Nat
  cull_face : Nat
  src_blend : Nat
  dst_blend : Nat
  blend_color : List Nat
  polygon_mode : Nat
  stencil_enable : Bool
  stencil_func : Nat
  stencil_ref : Int
  stencil_mask : Nat
  uniform_blocks : List UniformBlock
deriving DecidableEq, Repr

/-- find_uniform_block (opengl.cpp lines 1778-1787): first block whose
descriptor pointer is the given one. -/
def find_uniform_block (mat : Material) (descPtr : Nat) : Option UniformBlock :=
  mat.uniform_blocks.find? (fun ub => ub.uniform_descriptor == descPtr)

/-- The loop of apply_uniforms (opengl.cpp lines 1797-1810): walks the
metadata until the first unset type, looks the block up each iteration,
and issues set_uniform(metadata[i], ub->locations[i], data).  Returns the
calls issued on success; none models the abort (return false) paths. -/
def apply_uniforms_go (mat : Material) (ud : UniformData) :
    List UniformMetadata → Nat → Option (List GLCall)
  | [], _ => some []
  | m :: rest, i =>
    if m.type = .none_ then some []
    else
      match find_uniform_block mat ud.descriptor with
      | none => none
      | some ub =>
        match set_uniform m (ub.locations.getD i (-1)) ud.data with
        | none => none
        | some c => (apply_uniforms_go mat ud rest (i + 1)).map (fun cs => c :: cs)

/-- apply_uniforms (opengl.cpp lines 1789-1813). -/
def apply_uniforms (mat : Material) (ud : UniformData) : Option (List GLCall) :=
  apply_uniforms_go mat ud (ud.metadata.take MUGFX_MAX_UNIFORMS) 0

/-! ## Claims about draw-time uniform application -/

/-- Modelled from claim C7's wording: the per-member call carries the local
buffer's contents at the member's computed offset, with the variant
selected by the type tag; in particular an int scalar is claimed to pass
buffer data (the v-variant), like every other type. -/
def claim_uniform_call_strict (uniform : UniformMetadata) (loc : Int) (data : List Nat) : GLCall :=
  let count := if uniform.array_size ≠ 0 then uniform.array_size else 1
  let ptr := data.drop uniform.offset
  match uniform.type with
  | .float => .uniform1fv loc count ptr
  | .vec2 => .uniform2fv loc count ptr
  | .vec3 => .uniform3fv loc count ptr
  | .vec4 => .uniform4fv loc count ptr
  | .int => .uniform1iv loc count ptr
  | .ivec2 => .uniform2iv loc count ptr
  | .ivec3 => .uniform3iv loc count ptr
  | .ivec4 => .uniform4iv loc count ptr
  | .uint => .uniform1uiv loc count ptr
  | .uvec2 => .uniform2uiv loc count ptr
  | .uvec3 => .uniform3uiv loc count ptr
  | .uvec4 => .uniform4uiv loc count ptr
  | .mat2 => .uniformMatrix2fv loc count ptr
  | .mat3 => .uniformMatrix3fv loc count ptr
  | .mat4 => .uniformMatrix4fv loc count ptr
  | .mat2x3 => .uniformMatrix2x3fv loc count ptr
  | .mat3x2 => .uniformMatrix3x2fv loc count ptr
  | .mat2x4 => .uniformMatrix2x4fv loc count ptr
  | .mat4x2 => .uniformMatrix4x2fv loc count ptr
  | .mat3x4 => .uniformMatrix3x4fv loc count ptr
  | .mat4x3 => .uniformMatrix4x3fv loc count ptr
  | .none_ => .uniform1fv loc count ptr

/-- The per-member call of the amended claim: as claimed for every type
except the int scalar, which passes the constant 0 via glUniform1i.  The
none_ arm is unreachable for declared members. -/
def claim_uniform_call (uniform : UniformMetadata) (loc : Int) (data : List Nat) : GLCall :=
  match uniform.type with
  | .int => .uniform1i loc 0
  | _ => claim_uniform_call_strict uniform loc data

/-- The amended claim's expected call sequence: one call per declared
member (up to the first unset type), at the member's resolved location. -/
def claim_calls (ub : UniformBlock) (data : List Nat) :
    List UniformMetadata → Nat → List GLCall
  | [], _ => []
  | m :: rest, i =>
    if m.type = .none_ then []
    else claim_uniform_call m (ub.locations.getD i (-1)) data :: claim_calls ub data rest (i + 1)

/-- For a declared member, set_uniform issues exactly the amended claim's
call. -/
theorem set_uniform_eq_claim (m : UniformMetadata) (loc : Int) (data : List Nat)
    (hm : m.type ≠ .none_) :
    set_uniform m loc data = some (claim_uniform_call m loc data) := by
  cases htype : m.type <;>
    first
      | exact absurd htype hm
      | simp [set_uniform, claim_uniform_call, claim_uniform_call_strict, htype]

/-- apply_uniforms_go produces exactly the amended claim's calls once the
material has a block for the instance's descriptor. -/
theorem apply_uniforms_go_eq_claim (mat : Material) (ud : UniformData) (ub : UniformBlock)
    (hub : find_uniform_block mat ud.descriptor = some ub) :
    ∀ (ms : List UniformMetadata) (i : Nat),
      apply_uniforms_go mat ud ms i = some (claim_calls ub ud.data ms i)
  | [], _ => by simp [apply_uniforms_go, claim_calls]
  | m :: rest, i => by
    by_cases hm : m.type = .none_
    · simp [apply_uniforms_go, claim_calls, hm]
    · simp [apply_uniforms_go, claim_calls, hm, hub, set_uniform_eq_claim,
        apply_uniforms_go_eq_claim mat ud ub hub rest (i + 1)]

/-- C7 amended: when the bound Uniform Data instance's descriptor has a
resolved Uniform Block in the material, draw-time application issues
exactly one typed backend call per declared member, at the member's
resolved bind point, passing the local buffer's contents at the member's
computed offset — except for int scalars, where glUniform1i(loc, 0) passes
the constant 0 instead of the buffer contents. -/
theorem apply_uniforms_one_call_per_member (mat : Material) (ud : UniformData)
    (ub : UniformBlock) (hub : find_uniform_block mat ud.descriptor = some ub) :
    apply_uniforms mat ud
      = some (claim_calls ub ud.data (ud.metadata.take MUGFX_MAX_UNIFORMS) 0) :=
  apply_uniforms_go_eq_claim mat ud ub hub (ud.metadata.take MUGFX_MAX_UNIFORMS) 0

/-- The resolved block of the concrete material used for C7. -/
def ubInt : UniformBlock :=
  { uniform_descriptor := 5, locations := 7 :: List.replicate 31 (-1) }

/-- A concrete material whose only block resolves descriptor 5. -/
def matInt : Material :=
  { vert_shader := 1, frag_shader := 2, shader_program := 3
    depth_func := 0, write_mask := 0, cull_face := 0
    src_blend := 0, dst_blend := 0, blend_color := [0, 0, 0, 0]
    polygon_mode := 0, stencil_enable := false, stencil_func := 0
    stencil_ref := 0, stencil_mask := 0
    uniform_blocks := [ubInt] }

/-- A concrete instance with a single int member whose buffer holds the
little-endian bytes of 5. -/
def udInt : UniformData :=
  { descriptor := 5
    metadata :=
      { name := "n", type := .int, array_size := 0, offset := 0 }
        :: List.replicate 31 metaDefault
    size := 4
    data := [5, 0, 0, 0] }

/-- C7 counterexample: for the int member, the issued call is
glUniform1i(7, 0); the claim as stated expects the buffer contents
[5, 0, 0, 0] at the member's offset to be passed. -/
theorem apply_uniforms_int_counterexample :
    apply_uniforms matInt udInt = some [GLCall.uniform1i 7 0]
      ∧ apply_uniforms matInt udInt
          ≠ some [claim_uniform_call_strict (udInt.metadata.getD 0 metaDefault) 7 udInt.data] := by
  decide

/-- Witness for apply_uniforms_one_call_per_member on the concrete material
and instance. -/
theorem apply_uniforms_one_call_witness :
    apply_uniforms matInt udInt
      = some (claim_calls ubInt udInt.data (udInt.metadata.take MUGFX_MAX_UNIFORMS) 0) :=
  apply_uniforms_one_call_per_member matInt udInt ubInt (by decide)

/-! ## Material creation from src/src/opengl/opengl.cpp

The OpenGL driver and the global shader pool are external to the functions
under verification; their responses (enum translation tables, program
creation, attach/link status, glGetUniformLocation, shader lookups) are
supplied by an environment record, so that mugfx_material_create below
follows the source control flow gate by gate. -/

/-- Shader::Sampler (opengl.cpp lines 507-510). -/
structure Sampler where
  name : String
  binding : Nat
deriving DecidableEq, Repr

/-- Shader (opengl.cpp lines 506-516): backend shader object, samplers and
the referenced uniform descriptors (pointer identity paired with the
pointee; none is a null entry, which terminates the loops). -/
structure Shader where
  shader : Nat
  samplers : List Sampler
  uniform_descriptors : List (Option (Nat × UniformDescriptor))
deriving DecidableEq, Repr

/-- Environment of external responses consumed by mugfx_material_create. -/
structure MaterialCreateEnv where
  gl_depth_func : Nat → Option Nat
  gl_write_mask : Nat → Option Nat
  gl_cull_face_mode : Nat → Option Nat
  gl_blend_func : Nat → Option Nat
  gl_polygon_mode : Nat → Option Nat
  gl_stencil_func : Nat → Option Nat
  createProgram : Nat
  attachVertError : Nat
  attachFragError : Nat
  linkStatus : Bool
  locOf : String → Int
  shaderLookup : Nat → Option Shader

/-- mugfx_material_create_params: the fields the OpenGL backend reads. -/
structure MaterialCreateParams where
  vert_shader : Nat
  frag_shader : Nat
  depth_func : Nat
  write_mask : Nat
  cull_face : Nat
  src_blend : Nat
  dst_blend : Nat
  blend_color : List Nat
  polygon_mode : Nat
  stencil_enable : Bool
  stencil_func : Nat
  stencil_ref : Int
  stencil_mask : Nat

/-- Outcome of mugfx_material_create: the returned id, the material pool
afterwards, and the programs passed to glDeleteProgram on the way out. -/
structure MaterialCreateResult where
  id : Nat
  materials : Pool Material
  deleted_programs : List Nat
deriving DecidableEq, Repr

/-- The inner loop of add_uniform_blocks (opengl.cpp lines 988-997):
locations[u] = glGetUniformLocation(prog, name) for each declaration up to
the first unset type; any -1 aborts with nullopt. -/
def block_locations_go (locOf : String → Int) : List UniformDecl → Option (List Int)
  | [] => some []
  | u :: rest =>
    if u.type = .none_ then some []
    else
      let loc := locOf (u.name.getD "")
      if loc = -1 then none
      else (block_locations_go locOf rest).map (fun ls => loc :: ls)

/-- The locations array of one uniform block: resolved entries for the
declared prefix, -1 elsewhere (ub.locations.fill(-1), line 987). -/
def block_locations (locOf : String → Int) (d : UniformDescriptor) : Option (List Int) :=
  (block_locations_go locOf (d.uniforms.take MUGFX_MAX_UNIFORMS)).map
    (fun ls => ls ++ List.replicate (MUGFX_MAX_UNIFORMS - ls.length) (-1))

/-- The outer loop of add_uniform_blocks (opengl.cpp lines 977-1001):
walks the shader's descriptor pointers up to the first null, appending one
resolved block per descriptor; resolution failure aborts with nullopt. -/
def add_uniform_blocks_go (locOf : String → Int) (blocks : List UniformBlock) :
    List (Option (Nat × UniformDescriptor)) → Option (List UniformBlock)
  | [] => some blocks
  | none :: _ => some blocks
  | some pd :: rest =>
    match block_locations locOf pd.2 with
    | none => none
    | some locs => add_uniform_blocks_go locOf (blocks ++ [⟨pd.1, locs⟩]) rest

/-- add_uniform_blocks (opengl.cpp lines 977-1001). -/
def add_uniform_blocks (locOf : String → Int) (mat : Material) (sh : Shader) :
    Option Material :=
  (add_uniform_blocks_go locOf mat.uniform_blocks sh.uniform_descriptors).map
    (fun bs => { mat with uniform_blocks := bs })

/-- get_sampler_locations (opengl.cpp lines 1003-1015): one location per
sampler up to the first empty name; -1 aborts with false. -/
def get_sampler_locations_go (locOf : String → Int) : List Sampler → Option (List Int)
  | [] => some []
  | s :: rest =>
    if s.name = "" then some []
    else
      let loc := locOf s.name
      if loc = -1 then none
      else (get_sampler_locations_go locOf rest).map (fun ls => loc :: ls)

/-- get_sampler_locations over a shader's sampler list. -/
def get_sampler_locations (locOf : String → Int) (sh : Shader) : Option (List Int) :=
  get_sampler_locations_go locOf sh.samplers

/-- mugfx_material_create (opengl.cpp lines 1018-1175): validation gates in
source order, program creation, shader lookups, attach, link, uniform
block resolution for both stages, sampler resolution, then pool insertion.
Every failure returns id 0 with the pool untouched; failures from attach
onward delete the created program first (the pre-attach returns leave it
to the driver, as in the source). -/
def mugfx_material_create (env : MaterialCreateEnv) (params : MaterialCreateParams)
    (materials : Pool Material) : MaterialCreateResult :=
  match env.gl_depth_func params.depth_func with
  | none => ⟨0, materials, []⟩
  | some depth_func =>
    match env.gl_write_mask params.write_mask with
    | none => ⟨0, materials, []⟩
    | some write_mask =>
      match env.gl_cull_face_mode params.cull_face with
      | none => ⟨0, materials, []⟩
      | some cull_face =>
        match env.gl_blend_func params.src_blend with
        | none => ⟨0, materials, []⟩
        | some src_blend =>
          match env.gl_blend_func params.dst_blend with
          | none => ⟨0, materials, []⟩
          | some dst_blend =>
            match env.gl_polygon_mode params.polygon_mode with
            | none => ⟨0, materials, []⟩
            | some polygon_mode =>
              match env.gl_stencil_func params.stencil_func with
              | none => ⟨0, materials, []⟩
              | some stencil_func =>
                let prog := env.createProgram
                if prog = 0 then ⟨0, materials, []⟩
                else
                  match env.shaderLookup params.vert_shader with
                  | none => ⟨0, materials, []⟩
                  | some vert =>
                    match env.shaderLookup params.frag_shader with
                    | none => ⟨0, materials, []⟩
                    | some frag =>
                      if env.attachVertError ≠ 0 then ⟨0, materials, [prog]⟩
                      else if env.attachFragError ≠ 0 then ⟨0, materials, [prog]⟩
                      else if env.linkStatus = false then ⟨0, materials, [prog]⟩
                      else
                        let mat : Material :=
                          { vert_shader := params.vert_shader
                            frag_shader := params.frag_shader
                            shader_program := prog
                            depth_func := depth_func
                            write_mask := write_mask
                            cull_face := cull_face
                            src_blend := src_blend
                            dst_blend := dst_blend
                            blend_color := params.blend_color
                            polygon_mode := polygon_mode
                            stencil_enable := params.stencil_enable
                            stencil_func := stencil_func
                            stencil_ref := params.stencil_ref
                            stencil_mask := params.stencil_mask
                            uniform_blocks := [] }
                        match add_uniform_blocks env.locOf mat vert with
                        | none => ⟨0, materials, [prog]⟩
                        | some mat1 =>
                          match add_uniform_blocks env.locOf mat1 frag with
                          | none => ⟨0, materials, [prog]⟩
                          | some mat2 =>
                            match get_sampler_locations env.locOf vert with
                            | none => ⟨0, materials, [prog]⟩
                            | some _ =>
                              match get_sampler_locations env.locOf frag with
                              | none => ⟨0, materials, [prog]⟩
                              | some _ =>
                                let r := materials.insert mat2
                                ⟨r.1, r.2, []⟩

/-- The descriptors a shader's resolution loop actually visits: the
pointers up to the first null entry. -/
def activeDescriptors (sh : Shader) : List (Nat × UniformDescriptor) :=
  (sh.uniform_descriptors.takeWhile Option.isSome).filterMap id

/-- The declarations the per-descriptor loop actually visits: the first
MUGFX_MAX_UNIFORMS entries up to the first unset type. -/
def activeDecls (d : UniformDescriptor) : List UniformDecl :=
  (d.uniforms.take MUGFX_MAX_UNIFORMS).takeWhile (fun u => u.type ≠ .none_)

/-- Some uniform name declared in a visited descriptor of the shader does
not resolve in the linked program. -/
def hasUnresolvedUniform (locOf : String → Int) (sh : Shader) : Prop :=
  ∃ pd ∈ activeDescriptors sh, ∃ u ∈ activeDecls pd.2, locOf (u.name.getD "") = -1

/-- The per-descriptor resolution loop fails exactly when some visited
declaration's name resolves to -1. -/
theorem block_locations_go_eq_none (locOf : String → Int) :
    ∀ us : List UniformDecl,
      block_locations_go locOf us = none
        ↔ ∃ u ∈ us.takeWhile (fun u => u.type ≠ UniformType.none_),
            locOf (u.name.getD "") = -1
  | [] => by simp [block_locations_go]
  | u :: rest => by
    by_cases ht : u.type = UniformType.none_
    · simp [block_locations_go, ht]
    · by_cases hl : locOf (u.name.getD "") = -1
      · simp [block_locations_go, ht, hl]
      · simp [block_locations_go, ht, hl, block_locations_go_eq_none locOf rest]

/-- block_locations fails exactly when some visited declaration of the
descriptor is unresolved. -/
theorem block_locations_eq_none (locOf : String → Int) (d : UniformDescriptor) :
    block_locations locOf d = none
      ↔ ∃ u ∈ activeDecls d, locOf (u.name.getD "") = -1 := by
  simp [block_locations, activeDecls, block_locations_go_eq_none]

/-- The per-shader resolution loop fails exactly when some visited
descriptor fails to resolve, independently of the blocks accumulated so
far. -/
theorem add_uniform_blocks_go_eq_none (locOf : String → Int) :
    ∀ (ds : List (Option (Nat × UniformDescriptor))) (blocks : List UniformBlock),
      add_uniform_blocks_go locOf blocks ds = none
        ↔ ∃ pd ∈ (ds.takeWhile Option.isSome).filterMap id,
            block_locations locOf pd.2 = none
  | [], blocks => by simp [add_uniform_blocks_go]
  | none :: rest, blocks => by simp [add_uniform_blocks_go]
  | some pd :: rest, blocks => by
    cases hbl : block_locations locOf pd.2 with
    | none => simp [add_uniform_blocks_go, hbl]
    | some locs =>
      simp [add_uniform_blocks_go, hbl,
        add_uniform_blocks_go_eq_none locOf rest (blocks ++ [⟨pd.1, locs⟩])]

/-- add_uniform_blocks fails exactly when the shader has an unresolved
uniform name. -/
theorem add_uniform_blocks_eq_none (locOf : String → Int) (mat : Material) (sh : Shader) :
    add_uniform_blocks locOf mat sh = none ↔ hasUnresolvedUniform locOf sh := by
  simp [add_uniform_blocks, add_uniform_blocks_go_eq_none, hasUnresolvedUniform,
    activeDescriptors, block_locations_eq_none]

/-- C8: when parameter validation, program creation, shader lookup, attach
and link all succeed but some uniform name declared in a referenced
descriptor of either stage does not resolve in the linked program,
material creation fails entirely: it returns id 0, leaves the material
pool untouched, and the created program is deleted before returning. -/
theorem material_create_fails_on_unresolved_uniform
    (env : MaterialCreateEnv) (params : MaterialCreateParams) (materials : Pool Material)
    (df wm cf sb db pm sf : Nat) (vert frag : Shader)
    (hdf : env.gl_depth_func params.depth_func = some df)
    (hwm : env.gl_write_mask params.write_mask = some wm)
    (hcf : env.gl_cull_face_mode params.cull_face = some cf)
    (hsb : env.gl_blend_func params.src_blend = some sb)
    (hdb : env.gl_blend_func params.dst_blend = some db)
    (hpm : env.gl_polygon_mode params.polygon_mode = some pm)
    (hsf : env.gl_stencil_func params.stencil_func = some sf)
    (hprog : env.createProgram ≠ 0)
    (hvert : env.shaderLookup params.vert_shader = some vert)
    (hfrag : env.shaderLookup params.frag_shader = some frag)
    (ha1 : env.attachVertError = 0)
    (ha2 : env.attachFragError = 0)
    (hlink : env.linkStatus = true)
    (hunres : hasUnresolvedUniform env.locOf vert ∨ hasUnresolvedUniform env.locOf frag) :
    mugfx_material_create env params materials
      = ⟨0, materials, [env.createProgram]⟩ := by
  unfold mugfx_material_create
  simp only [hdf, hwm, hcf, hsb, hdb, hpm, hsf, hvert, hfrag, ha1, ha2, hlink]
  simp only [hprog, if_false, ite_false, ne_eq, not_true_eq_false, not_false_eq_true,
    if_neg hprog]
  simp [hprog]
  split
  · rfl
  · rename_i x1 mat1 h1
    split
    · rfl
    · rename_i x2 mat2 h2
      exfalso
      rcases hunres with hv | hf
      · rw [(add_uniform_blocks_eq_none env.locOf _ vert).mpr hv] at h1
        exact Option.noConfusion h1
      · rw [(add_uniform_blocks_eq_none env.locOf mat1 frag).mpr hf] at h2
        exact Option.noConfusion h2

/-- A one-member descriptor whose name will not resolve; C8 witness data. -/
def descBad : UniformDescriptor :=
  { uniforms := [{ name := some "bad", type := .float, array_size := 0, offset := 0 }]
    size := 0 }

/-- A vertex shader referencing descBad; C8 witness data. -/
def vertBad : Shader :=
  { shader := 3, samplers := [], uniform_descriptors := [some (11, descBad)] }

/-- A fragment shader with no descriptors; C8 witness data. -/
def fragPlain : Shader :=
  { shader := 4, samplers := [], uniform_descriptors := [] }

/-- An environment where every translation succeeds, the program links, and
no uniform name resolves; C8 witness data. -/
def envBad : MaterialCreateEnv :=
  { gl_depth_func := fun n => some n
    gl_write_mask := fun n => some n
    gl_cull_face_mode := fun n => some n
    gl_blend_func := fun n => some n
    gl_polygon_mode := fun n => some n
    gl_stencil_func := fun n => some n
    createProgram := 9
    attachVertError := 0
    attachFragError := 0
    linkStatus := true
    locOf := fun _ => -1
    shaderLookup := fun n =>
      if n = 1 then some vertBad else if n = 2 then some fragPlain else none }

/-- Creation parameters naming the witness shaders. -/
def paramsBad : MaterialCreateParams :=
  { vert_shader := 1, frag_shader := 2, depth_func := 0, write_mask := 0
    cull_face := 0, src_blend := 0, dst_blend := 0, blend_color := [0, 0, 0, 0]
    polygon_mode := 0, stencil_enable := false, stencil_func := 0
    stencil_ref := 0, stencil_mask := 0 }

/-- A fresh material pool for the C8 witness. -/
def materialsInit : Pool Material := Pool.init Material 4

/-- Witness for material_create_fails_on_unresolved_uniform: with the
unresolvable name bad, creation returns 0, the pool is untouched and
program 9 is deleted. -/
theorem material_create_fails_witness :
    mugfx_material_create envBad paramsBad materialsInit = ⟨0, materialsInit, [9]⟩ :=
  material_create_fails_on_unresolved_uniform envBad paramsBad materialsInit
    0 0 0 0 0 0 0 vertBad fragPlain rfl rfl rfl rfl rfl rfl rfl (by decide)
    rfl rfl rfl rfl rfl
    (Or.inl ⟨(11, descBad), by decide,
      { name := some "bad", type := .float, array_size := 0, offset := 0 },
      by decide, rfl⟩)

/-! ## Render target stubs from src/src/opengl/opengl.cpp -/

/-- mugfx_render_target_attachment (mugfx.h lines 443-446). -/
structure RenderTargetAttachment where
  format : Nat
  sampleable : Bool
deriving DecidableEq, Repr

/-- mugfx_render_target_create_params (mugfx.h lines 448-456). -/
structure RenderTargetCreateParams where
  width : Nat
  height : Nat
  color : List RenderTargetAttachment
  depth : RenderTargetAttachment
  samples : Nat
deriving DecidableEq, Repr

/-- mugfx_render_target_create (opengl.cpp lines 1670-1673): the body is
return { 0 } for every input. -/
def mugfx_render_target_create (_params : RenderTargetCreateParams) : Nat := 0

/-- mugfx_render_target_destroy (opengl.cpp line 1685): empty body, so the
state-passing embedding returns the state unchanged. -/
def mugfx_render_target_destroy {σ : Type} (_target : Nat) (s : σ) : σ := s

/-- mugfx_render_target_bind (opengl.cpp line 1687): empty body. -/
def mugfx_render_target_bind {σ : Type} (_target : Nat) (s : σ) : σ := s

/-- mugfx_render_target_blit_to_render_target (opengl.cpp lines 1675-1678):
empty body. -/
def mugfx_render_target_blit_to_render_target {σ : Type} (_src _dst : Nat) (s : σ) : σ := s

/-- mugfx_render_target_blit_to_texture (opengl.cpp lines 1680-1683):
empty body. -/
def mugfx_render_target_blit_to_texture {σ : Type} (_src _dst : Nat) (s : σ) : σ := s

/-- C10: render target creation returns the invalid handle 0 for every
input, and destroy/bind/blit are no-ops leaving all state unchanged. -/
theorem render_target_stubs_are_inert (p : RenderTargetCreateParams) (σ : Type) (s : σ)
    (src dst : Nat) :
    mugfx_render_target_create p = 0
      ∧ mugfx_render_target_destroy dst s = s
      ∧ mugfx_render_target_bind dst s = s
      ∧ mugfx_render_target_blit_to_render_target src dst s = s
      ∧ mugfx_render_target_blit_to_texture src dst s = s :=
  ⟨rfl, rfl, rfl, rfl, rfl⟩

end Mugfx
